import Mathlib

/-
Verification development for the `pyonepassword` module `_py_op_cli.py`:
a shallow embedding of the config accessor (`OPCLIConfig`), the session
manager (`_OPCLIExecute`) and the argument-vector builder (`_OPArgv`),
together with proofs about the embedded definitions.

Conventions of the embedding:
  - Python `None`-able strings become `Option String`; Python truthiness
    of a string value (`if s:`) is `pyTruthy` (false for absent and for
    the empty string).
  - Byte strings are modelled as `String`; `bytes.decode("utf-8")` is the
    identity and `rstrip()` drops trailing ASCII whitespace.
  - The process environment is an association list with first-match
    lookup; setting a key conses a fresh binding.
  - Filesystem, JSON parsing and subprocess outcomes are oracle inputs
    (`ConfigOutcome`, `OPWorld`): each oracle value fixes what the outside
    world would have answered, and the embedded control flow is translated
    line by line from the source.
  - Raised exceptions become `Except` errors carrying the constructor
    payloads from the source's raise sites.
  - Which subprocesses get started is recorded in an `OPEvent` trace so
    that claims of the form "X is never invoked" are statements about the
    trace.
-/

/-- Python truthiness of an optional string: `None` and `""` are falsy. -/
def pyTruthy : Option String → Bool
  | none => false
  | some s => if s = "" then false else true

/-- Python whitespace for `rstrip` on byte/str values (space, tab, LF, VT, FF, CR). -/
def pyWsChar (c : Char) : Bool :=
  c = ' ' || c = '\t' || c = '\n' || c = '\r' || c = Char.ofNat 11 || c = Char.ofNat 12

/-- Python `s.rstrip()`: drop trailing whitespace characters. -/
def pyRstrip (s : String) : String :=
  ⟨(s.data.reverse.dropWhile pyWsChar).reverse⟩

/-- Process environment, modelled as an association list with first-match lookup. -/
def envGet (e : List (String × String)) (k : String) : Option String :=
  List.lookup k e

/-- Setting an environment variable (`env[k] = v`). -/
def envSet (e : List (String × String)) (k : String) (v : String) : List (String × String) :=
  (k, v) :: e

/-- Contiguous-sublist test on character lists (helper for `strContains`). -/
def containsSublist (needle : List Char) : List Char → Bool
  | [] => needle.isEmpty
  | c :: rest => needle.isPrefixOf (c :: rest) || containsSublist needle rest

/-- Python substring containment `needle in haystack` on strings. -/
def strContains (haystack needle : String) : Bool :=
  containsSublist needle.data haystack.data

/-- The typed failures of `py_op_exceptions`, one constructor per exception class
raised or caught by `_py_op_cli.py`, carrying the payloads given at the raise sites. -/
inductive OPError where
  | cmdFailed (err_output : String) (returncode : Int)
  | configNotFound (msg : String)
  | invalidItem (msg : String)
  | notFound (path : String) (errno : Int)
  | notSignedIn (msg : String)
  | signinFailed (err_output : String) (returncode : Int)
deriving Repr, DecidableEq

/-- Oracle describing what `OPCLIConfig.__init__` finds in the filesystem:
either no config path exists, or opening fails, or JSON decoding fails, or the
file parses and its `latest_signin` key is present/absent as recorded. -/
inductive ConfigOutcome where
  | noConfigFound
  | fileNotFound (path : String)
  | permissionDenied (path : String)
  | jsonDecodeError (path : String)
  | parsed (latest_signin : Option String)
deriving Repr, DecidableEq

/-- The loaded `op` config, restricted to the key the session manager reads. -/
structure OPCLIConfig where
  latest_signin : Option String
deriving Repr, DecidableEq

/-- Mirrors `OPCLIConfig.__init__` (lines 36-58): every failure to locate, open
or json-decode the config raises `OPConfigNotFoundException` with the message
built at the corresponding raise site; on success the parsed mapping is returned. -/
def OPCLIConfig_init : ConfigOutcome → Except OPError OPCLIConfig
  | .noConfigFound => .error (.configNotFound "No op configuration found")
  | .fileNotFound p => .error (.configNotFound ("op config not found at path: " ++ p))
  | .permissionDenied p =>
      .error (.configNotFound ("Permission denied accessing op config at path: " ++ p))
  | .jsonDecodeError p =>
      .error (.configNotFound ("Unable to json decode config at path: " ++ p))
  | .parsed ls => .ok ⟨ls⟩

/-- Mirrors the shorthand-determination prefix of `_OPCLIExecute.__init__`
(lines 142-153): an explicit `account_shorthand` is used as-is; otherwise
`OPCLIConfig()` is constructed (its errors propagate) and
`config['latest_signin']` is read with `KeyError` mapped to `None`; if the
result is still `None`, `OPNotSignedInException` is raised. -/
def resolve_account_shorthand (explicit : Option String) (cfg : ConfigOutcome) :
    Except OPError String :=
  match explicit with
  | some sh => .ok sh
  | none =>
    match OPCLIConfig_init cfg with
    | .error e => .error e
    | .ok c =>
      match c.latest_signin with
      | some sh => .ok sh
      | none =>
          .error (.notSignedIn "Account shorthand not provided and not found in 'op' config")

/-- Class attribute `_OPCLIExecute.NOT_SIGNED_IN_TEXT` (line 96). -/
def NOT_SIGNED_IN_TEXT : String := "not currently signed in"

/-- Trace of the observable collaborator invocations made by the embedded code:
subprocess runs (version probe, verify-signin probe, the two sign-in flavors,
each sign-in event recording the arguments handed to the corresponding helper
and the value piped to the subprocess's stdin) and the item-template
serialization performed by `create_item_argv`. -/
inductive OPEvent where
  | runVersionProbe
  | runVerifyProbe
  | runInitialSignin (account_shorthand : String)
      (signin_address email_address secret_key : Option String) (input : Option String)
  | runNormalSignin (account_shorthand : String) (input : Option String)
  | serializeTemplate
deriving Repr, DecidableEq

/-- Mirrors `_OPCLIExecute._verify_signin` (lines 202-220): read the token from
the environment; if it is truthy, run the verify-signin probe (`probe` is the
oracle outcome of that run); a probe failure that is an `OPCmdFailedException`
whose `err_output` contains `NOT_SIGNED_IN_TEXT` invalidates the token
(returns `None`), any other `OPCmdFailedException` is re-raised, and the
(possibly absent) token is returned otherwise. -/
def verify_signin (envm : List (String × String)) (sess_var_name : String)
    (probe : Except OPError Unit) :
    Except OPError (Option String) × List OPEvent :=
  match envGet envm sess_var_name with
  | none => (.ok none, [])
  | some tok =>
    if tok = "" then (.ok (some tok), [])
    else
      match probe with
      | .ok _ => (.ok (some tok), [.runVerifyProbe])
      | .error (.cmdFailed out rc) =>
          if strContains out NOT_SIGNED_IN_TEXT then (.ok none, [.runVerifyProbe])
          else (.error (.cmdFailed out rc), [.runVerifyProbe])
      | .error e => (.error e, [.runVerifyProbe])

/-- Oracle for one `_OPCLIExecute` construction: the inherited process
environment, what the config filesystem probe finds, and the outcomes of the
three possible subprocess runs (`op --version`, the verify-signin probe, and
whichever sign-in command gets run; `signin_run`'s payload is the captured
stdout of the sign-in subprocess). -/
structure OPWorld where
  env : List (String × String)
  configOutcome : ConfigOutcome
  version_run : Except OPError String
  verify_probe : Except OPError Unit
  signin_run : Except OPError String

/-- The state `_OPCLIExecute.__init__` leaves behind on success: the exposed
`token` and `session_var` properties, the resolved `account_shorthand`, and
the process environment after `env[sess_var_name] = self.token`. -/
structure OPSessionState where
  token : String
  session_var : String
  account_shorthand : String
  env : List (String × String)
deriving Repr, DecidableEq

/-- Mirrors the sign-in portion of `_OPCLIExecute.__init__` (lines 172-185)
for the case where no valid reused token exists: raise `OPNotSignedInException`
when the password is falsy and prompting is disallowed; otherwise dispatch on
`initial_signin` (line 167: `None not in [account_shorthand, signin_address,
email_address, secret_key, password]`, where the shorthand is already
resolved) to `_do_initial_signin` or `_do_normal_signin`; both run the sign-in
subprocess through `_run_signin` with the password as its piped input, wrap
`OPCmdFailedException` into `OPSigninException` with the same payload, rstrip
and decode the captured stdout into the token, and finally export the token
into the environment. -/
def opSigninPhase (w : OPWorld) (sh : String)
    (signin_address email_address secret_key password : Option String)
    (password_prompt : Bool) (sess_var : String) :
    Except OPError OPSessionState × List OPEvent :=
  if !pyTruthy password && !password_prompt then
    (.error (.notSignedIn "No existing session and no password provided."), [])
  else
    let initial_signin :=
      ([some sh, signin_address, email_address, secret_key, password] :
        List (Option String)).all Option.isSome
    let ev :=
      if initial_signin then
        OPEvent.runInitialSignin sh signin_address email_address secret_key password
      else
        OPEvent.runNormalSignin sh password
    match w.signin_run with
    | .ok out =>
        let token := pyRstrip out
        (.ok ⟨token, sess_var, sh, envSet w.env sess_var token⟩, [ev])
    | .error (.cmdFailed o rc) => (.error (.signinFailed o rc), [ev])
    | .error e => (.error e, [ev])

/-- Mirrors `_OPCLIExecute.__init__` (lines 105-185): run the version probe
(`_get_cli_version`, whose failures propagate), resolve the account shorthand,
form `sess_var_name = 'OP_SESSION_' + shorthand`, optionally reuse an existing
session via `_verify_signin`, and if the resulting token is falsy perform the
sign-in phase; on success the token is exported into the environment and the
session state is returned, paired with the trace of subprocess invocations. -/
def opInit (w : OPWorld)
    (account_shorthand signin_address email_address secret_key password : Option String)
    (use_existing_session : Bool) (password_prompt : Bool) :
    Except OPError OPSessionState × List OPEvent :=
  match w.version_run with
  | .error e => (.error e, [.runVersionProbe])
  | .ok _ =>
    match resolve_account_shorthand account_shorthand w.configOutcome with
    | .error e => (.error e, [.runVersionProbe])
    | .ok sh =>
      let sess_var := "OP_SESSION_" ++ sh
      let vres :=
        if use_existing_session then verify_signin w.env sess_var w.verify_probe
        else (.ok none, [])
      match vres with
      | (.error e, ev) => (.error e, .runVersionProbe :: ev)
      | (.ok tok0, ev) =>
        match tok0 with
        | some t =>
          if t = "" then
            let (r, ev2) :=
              opSigninPhase w sh signin_address email_address secret_key password
                password_prompt sess_var
            (r, .runVersionProbe :: (ev ++ ev2))
          else
            (.ok ⟨t, sess_var, sh, envSet w.env sess_var t⟩, .runVersionProbe :: ev)
        | none =>
          let (r, ev2) :=
            opSigninPhase w sh signin_address email_address secret_key password
              password_prompt sess_var
          (r, .runVersionProbe :: (ev ++ ev2))

/-- Mirrors `_OPCLIExecute._run_raw` (lines 252-273) after the subprocess has
produced `(stdout, stderr, returncode)`: unless `ignore_error` is set,
`check_returncode()` raises on a non-zero exit code and the
`CalledProcessError` is turned into `OPCmdFailedException` carrying the
utf-8-decoded, rstripped stderr and the exit code; otherwise the triple is
returned unchanged. -/
def run_raw (stdout : Option String) (stderr : String) (returncode : Int)
    (ignore_error : Bool) : Except OPError (Option String × String × Int) :=
  if !ignore_error && returncode ≠ 0 then
    .error (.cmdFailed (pyRstrip stderr) returncode)
  else
    .ok (stdout, stderr, returncode)

/-- An argument-vector token: a Python string or `None` (Python `None` can end
up inside the list, e.g. `normal_signin_argv` with no shorthand). -/
abbrev ArgTok := Option String

/-- The `_OPArgv` list subclass (lines 295-325): the list contents (`argv`)
plus the extra attributes the constructor records. -/
structure OPArgv where
  argv : List ArgTok
  command : Option String
  subcommand : Option String
  args_to_command : List ArgTok
deriving Repr, DecidableEq

/-- Mirrors `_OPArgv.__init__` (lines 304-325): `argv = [op_exe]`, append each
global arg, append `command` if truthy, record `self.command`, set
`self.subcommand` to `None` and then to `subcommand` (appending it) if truthy,
extend with `args`, and initialize the list with the result. -/
def OPArgv.init (op_exe : String) (command : Option String) (args : List ArgTok)
    (subcommand : Option String := none) (global_args : List ArgTok := []) : OPArgv :=
  { argv := some op_exe :: global_args
      ++ (if pyTruthy command then [command] else [])
      ++ (if pyTruthy subcommand then [subcommand] else [])
      ++ args
    command := command
    subcommand := if pyTruthy subcommand then subcommand else none
    args_to_command := args }

/-- Mirrors `_OPArgv.get_generic_argv` (lines 338-344): `args = [obj_identifier]`,
extended with `sub_cmd_args` when that list is truthy (non-empty), wrapped in
the constructor under the `get` command and the given subcommand. -/
def get_generic_argv (op_exe : String) (get_subcommand : String)
    (obj_identifier : String) (sub_cmd_args : List ArgTok) : OPArgv :=
  let args := if sub_cmd_args.isEmpty then [some obj_identifier]
              else some obj_identifier :: sub_cmd_args
  OPArgv.init op_exe (some "get") args (some get_subcommand)

/-- Mirrors `_OPArgv.get_item_argv` (lines 347-356): optional `--vault` and
`--fields` pairs (appended only when the value is truthy), then the generic
`get item` form. -/
def get_item_argv (op_exe : String) (item_name_or_uuid : String)
    (vault : Option String := none) (fields : Option String := none) : OPArgv :=
  let sub_cmd_args :=
    (if pyTruthy vault then [some "--vault", vault] else [])
    ++ (if pyTruthy fields then [some "--fields", fields] else [])
  get_generic_argv op_exe "item" item_name_or_uuid sub_cmd_args

/-- Mirrors `_OPArgv.get_totp_argv` (lines 358-366). -/
def get_totp_argv (op_exe : String) (item_name_or_uuid : String)
    (vault : Option String := none) : OPArgv :=
  let sub_cmd_args := if pyTruthy vault then [some "--vault", vault] else []
  get_generic_argv op_exe "totp" item_name_or_uuid sub_cmd_args

/-- Mirrors `_OPArgv.get_document_argv` (lines 368-375). -/
def get_document_argv (op_exe : String) (document_name_or_uuid : String)
    (vault : Option String := none) : OPArgv :=
  let sub_cmd_args := if pyTruthy vault then [some "--vault", vault] else []
  get_generic_argv op_exe "document" document_name_or_uuid sub_cmd_args

/-- Mirrors `_OPArgv.normal_signin_argv` (lines 377-383): optional
`--account shorthand` global args, command `signin`, and the positional list
`[account_shorthand, "--raw"]` — note the shorthand value itself (possibly
`None`) is placed in the list. -/
def normal_signin_argv (op_exe : String) (account_shorthand : Option String := none) :
    OPArgv :=
  let global_args := if pyTruthy account_shorthand
                     then [some "--account", account_shorthand] else []
  let argv : List ArgTok := [account_shorthand, some "--raw"]
  OPArgv.init op_exe (some "signin") argv none global_args

/-- The URL collaborator object returned by `item.first_url()`: its `url`
attribute may itself be absent. -/
structure OPURL where
  url : Option String
deriving Repr, DecidableEq

/-- Modelled from the spec: the Item collaborator
(`op_items._op_items_base.OPAbstractItem`) is outside the sources; per the
spec's collaborator interface it exposes `is_from_template`, `category`,
`first_url()` and `details_secure_tempfile(encoding) -> path`, the last
modelled as the recorded path `details_tempfile` whose production is the
template-serialization side effect. -/
structure OPAbstractItem where
  is_from_template : Bool
  category : String
  details_tempfile : String
  first_url : Option OPURL
deriving Repr, DecidableEq

/-- Mirrors `_OPArgv.create_item_argv` (lines 385-410): raise
`OPInvalidItemException` when the item is not from a template; otherwise
serialize the item to a secure tempfile (recorded as a `serializeTemplate`
trace event), and build
`[category, "--title", item_name, "--template", tempfile]` with optional
`--url` (first URL's truthy `url` value only) and `--vault`, under command
`create` and subcommand `item`.  The event trace records every collaborator
invocation; no process-execution event is ever emitted by this builder. -/
def create_item_argv (op_exe : String) (item : OPAbstractItem) (item_name : String)
    (vault : Option String := none) :
    Except OPError OPArgv × List OPEvent :=
  if !item.is_from_template then
    (.error (.invalidItem
      ("Attempting to create item using object not from a template: " ++ item_name)), [])
  else
    let template_filename := item.details_tempfile
    let category := item.category
    let url_value : Option String :=
      match item.first_url with
      | none => none
      | some u => u.url
    let argv : List ArgTok :=
      [some category, some "--title", some item_name,
       some "--template", some template_filename]
      ++ (if pyTruthy url_value then [some "--url", url_value] else [])
      ++ (if pyTruthy vault then [some "--vault", vault] else [])
    (.ok (OPArgv.init op_exe (some "create") argv (some "item")), [.serializeTemplate])

/-- Mirrors `_OPArgv.get_verify_signin_argv` (lines 412-416). -/
def get_verify_signin_argv (op_exe : String) : OPArgv :=
  OPArgv.init op_exe (some "list") [some "templates"]

/-- Mirrors `_OPArgv.cli_version_argv` (lines 418-423): no command, global
args `["--version"]`, empty args. -/
def cli_version_argv (op_exe : String) : OPArgv :=
  OPArgv.init op_exe none [] none [some "--version"]

/-- Mirrors `_OPArgv.signout_argv` (lines 425-432). -/
def signout_argv (op_exe : String) (account_shorthand : String) (session : String)
    (forget : Bool := false) : OPArgv :=
  let global_args : List ArgTok :=
    [some "--account", some account_shorthand, some "--session", some session]
  let signout_args : List ArgTok := if forget then [some "--forget"] else []
  OPArgv.init op_exe (some "signout") signout_args none global_args

/-- Mirrors `_OPArgv.forget_argv` (lines 434-438). -/
def forget_argv (op_exe : String) (account_shorthand : String) : OPArgv :=
  OPArgv.init op_exe (some "forget") [some account_shorthand]

/-- Mirrors `_OPArgv.list_generic_argv` (lines 440-444). -/
def list_generic_argv (op_exe : String) (list_subcommand : String)
    (sub_command_args : List ArgTok) : OPArgv :=
  OPArgv.init op_exe (some "list") sub_command_args (some list_subcommand)

/-- Mirrors `_OPArgv.list_items_argv` (lines 446-461): comma-joined
`--categories` and `--tags` when those lists are non-empty,
`--include-archive` when requested, optional `--vault`. -/
def list_items_argv (op_exe : String) (categories : List String := [])
    (include_archive : Bool := false) (tags : List String := [])
    (vault : Option String := none) : OPArgv :=
  let list_items_args : List ArgTok :=
    (if categories.isEmpty then []
     else [some "--categories", some (String.intercalate "," categories)])
    ++ (if include_archive then [some "--include-archive"] else [])
    ++ (if tags.isEmpty then []
        else [some "--tags", some (String.intercalate "," tags)])
    ++ (if pyTruthy vault then [some "--vault", vault] else [])
  list_generic_argv op_exe "items" list_items_args

/-- The single-quote character (written via its code point to keep character
handling uniform across the lexer definitions). -/
def sqCh : Char := Char.ofNat 39

/-- The double-quote character. -/
def dqCh : Char := Char.ofNat 34

/-- The backslash character (`shlex`'s escape character). -/
def bslCh : Char := Char.ofNat 92

/-- Characters `shlex.quote` considers safe: the complement of CPython's
`_find_unsafe` pattern, i.e. ASCII alphanumerics and underscore plus the
punctuation at-sign, percent, plus, equals, colon, comma, dot, slash, hyphen. -/
def shlexSafeChar (c : Char) : Bool :=
  ('a' ≤ c && c ≤ 'z') || ('A' ≤ c && c ≤ 'Z') || ('0' ≤ c && c ≤ '9') ||
  c = '_' || c = '@' || c = '%' || c = '+' || c = '=' || c = ':' ||
  c = ',' || c = '.' || c = '/' || c = '-'

/-- The `s.replace("'", "'\x22'\x22'")` step of `shlex.quote`: each single
quote becomes close-quote, a double-quoted single quote, reopen-quote. -/
def quoteReplace : List Char → List Char
  | [] => []
  | c :: cs =>
    if c = sqCh then sqCh :: dqCh :: sqCh :: dqCh :: sqCh :: quoteReplace cs
    else c :: quoteReplace cs

/-- Character-list form of CPython `shlex.quote`: `''` for the empty string,
the string itself when every character is safe, single-quoted with the
quote-escaping dance otherwise. -/
def shlexQuoteData (s : String) : List Char :=
  if s.data.isEmpty then [sqCh, sqCh]
  else if s.data.all shlexSafeChar then s.data
  else sqCh :: (quoteReplace s.data ++ [sqCh])

/-- Character-list form of CPython `shlex.join`: the quoted arguments joined
with single spaces. -/
def shlexJoinData : List String → List Char
  | [] => []
  | [s] => shlexQuoteData s
  | s :: rest => shlexQuoteData s ++ ' ' :: shlexJoinData rest

/-- CPython `shlex.join` on strings. -/
def shlexJoin (l : List String) : String := ⟨shlexJoinData l⟩

/-- CPython `shlex.quote` applied to an argument-vector token: `quote` begins
with a falsiness test (`if not s:` returns the two-quote string), so a `None`
entry — like the empty string — renders as a pair of single quotes rather
than raising. -/
def shlexQuoteTok : ArgTok → List Char
  | none => [sqCh, sqCh]
  | some s => shlexQuoteData s

/-- CPython `shlex.join` over the token list of an `_OPArgv` (which may hold
`None` entries): the quoted tokens joined with single spaces. -/
def shlexJoinToks : List ArgTok → List Char
  | [] => []
  | [t] => shlexQuoteTok t
  | t :: rest => shlexQuoteTok t ++ ' ' :: shlexJoinToks rest

/-- Mirrors `_OPArgv.cmd_str` (lines 331-336): `shlex.join(self)`; a `None`
entry in the list is rendered by `shlex.quote` as a pair of single quotes
(the rendering of a falsy value), so the call always succeeds. -/
def OPArgv.cmd_str (a : OPArgv) : String :=
  ⟨shlexJoinToks a.argv⟩

/-- Whitespace characters of the `shlex` lexer (`shlex.whitespace`). -/
def shlexWsChar (c : Char) : Bool :=
  c = ' ' || c = '\t' || c = '\r' || c = '\n'

/-- State of CPython's `shlex.read_token` state machine in POSIX
whitespace-split mode: between tokens (`ws`), inside a word (state `'a'`,
with the accumulated token and the `quoted` flag), inside a quoted section
(state is the quote character), or after an escape character (with the state
to return to: `none` for `'a'`, `some q` for quote state `q`). -/
inductive LexState where
  | ws
  | word (tok : List Char) (quoted : Bool)
  | quot (q : Char) (tok : List Char)
  | esc (fromQuote : Option Char) (tok : List Char) (quoted : Bool)
deriving Repr, DecidableEq

/-- One pass of CPython's `shlex` lexer (`posix=True`, `whitespace_split=True`,
no commenters, quotes `'` and `"`, escape `\`, `escapedquotes = '"'`),
accumulating completed tokens; errors are the lexer's "No closing quotation"
and "No escaped character" `ValueError`s. -/
def lex : List Char → LexState → List String → Except Unit (List String)
  | [], .ws, acc => .ok acc.reverse
  | [], .word tok quoted, acc =>
    if tok.isEmpty && !quoted then .ok acc.reverse
    else .ok (acc.reverse ++ [⟨tok⟩])
  | [], .quot _ _, _ => .error ()
  | [], .esc _ _ _, _ => .error ()
  | c :: cs, .ws, acc =>
    if shlexWsChar c then lex cs .ws acc
    else if c = bslCh then lex cs (.esc none [] false) acc
    else if c = sqCh || c = dqCh then lex cs (.quot c []) acc
    else lex cs (.word [c] false) acc
  | c :: cs, .word tok quoted, acc =>
    if shlexWsChar c then
      if tok.isEmpty && !quoted then lex cs .ws acc
      else lex cs .ws (⟨tok⟩ :: acc)
    else if c = sqCh || c = dqCh then lex cs (.quot c tok) acc
    else if c = bslCh then lex cs (.esc none tok quoted) acc
    else lex cs (.word (tok ++ [c]) quoted) acc
  | c :: cs, .quot q tok, acc =>
    if c = q then lex cs (.word tok true) acc
    else if c = bslCh && q = dqCh then lex cs (.esc (some q) tok true) acc
    else lex cs (.quot q (tok ++ [c])) acc
  | c :: cs, .esc fromQuote tok quoted, acc =>
    match fromQuote with
    | none => lex cs (.word (tok ++ [c]) quoted) acc
    | some q =>
      if c ≠ bslCh && c ≠ q then lex cs (.quot q (tok ++ [bslCh, c])) acc
      else lex cs (.quot q (tok ++ [c])) acc

/-- CPython `shlex.split(s)` (POSIX mode, whitespace split, comments off). -/
def shlexSplit (s : String) : Except Unit (List String) :=
  lex s.data .ws []

/-
Helper lemmas: computed shapes of the builder outputs.  These are shared by
several of the claim theorems below (each claim theorem is self-contained in
its statement; only these helpers are reused across proofs).
-/

theorem string_mk_data (s : String) : (⟨s.data⟩ : String) = s := rfl

theorem pyTruthy_some_ne (s : String) (h : s ≠ "") : pyTruthy (some s) = true := by
  simp [pyTruthy, h]

theorem pyTruthy_isSome (o : Option String) (h : pyTruthy o = true) :
    o.isSome = true := by
  cases o with
  | none => simp [pyTruthy] at h
  | some s => rfl

theorem cons_if_isEmpty (x : ArgTok) (l : List ArgTok) :
    (if l.isEmpty then [x] else x :: l) = x :: l := by
  cases l <;> simp

theorem argv_get_generic (e sub oid : String) (hsub : sub ≠ "") (sargs : List ArgTok) :
    (get_generic_argv e sub oid sargs).argv =
      some e :: some "get" :: some sub :: some oid :: sargs := by
  have h := cons_if_isEmpty (some oid) sargs
  cases sargs <;>
    simp [get_generic_argv, OPArgv.init, pyTruthy, hsub]

theorem argv_get_item (e n : String) (v f : Option String) :
    (get_item_argv e n v f).argv =
      [some e, some "get", some "item", some n]
        ++ ((if pyTruthy v then [some "--vault", v] else [])
            ++ (if pyTruthy f then [some "--fields", f] else [])) := by
  rw [get_item_argv, argv_get_generic e "item" n (by decide)]
  rfl

theorem argv_get_totp (e n : String) (v : Option String) :
    (get_totp_argv e n v).argv =
      [some e, some "get", some "totp", some n]
        ++ (if pyTruthy v then [some "--vault", v] else []) := by
  rw [get_totp_argv, argv_get_generic e "totp" n (by decide)]
  rfl

theorem argv_get_document (e n : String) (v : Option String) :
    (get_document_argv e n v).argv =
      [some e, some "get", some "document", some n]
        ++ (if pyTruthy v then [some "--vault", v] else []) := by
  rw [get_document_argv, argv_get_generic e "document" n (by decide)]
  rfl

theorem argv_normal_signin (e : String) (acct : Option String) :
    (normal_signin_argv e acct).argv =
      some e :: (if pyTruthy acct then [some "--account", acct] else [])
        ++ [some "signin"] ++ [acct, some "--raw"] := by
  have hs : pyTruthy (some "signin") = true := by decide
  have hn : pyTruthy none = false := rfl
  cases h : pyTruthy acct <;> simp [normal_signin_argv, OPArgv.init, hs, hn, h]

theorem argv_signout (e sh sess : String) (fg : Bool) :
    (signout_argv e sh sess fg).argv =
      some e :: [some "--account", some sh, some "--session", some sess]
        ++ [some "signout"] ++ (if fg then [some "--forget"] else []) := by
  cases fg <;> simp [signout_argv, OPArgv.init, pyTruthy]

theorem argv_forget (e sh : String) :
    (forget_argv e sh).argv = [some e, some "forget", some sh] := rfl

theorem argv_cli_version (e : String) :
    (cli_version_argv e).argv = [some e, some "--version"] := rfl

theorem argv_get_verify_signin (e : String) :
    (get_verify_signin_argv e).argv = [some e, some "list", some "templates"] := rfl

theorem argv_list_items (e : String) (cats : List String) (arch : Bool)
    (tags : List String) (vlt : Option String) :
    (list_items_argv e cats arch tags vlt).argv =
      [some e, some "list", some "items"]
        ++ ((if cats.isEmpty then []
             else [some "--categories", some (String.intercalate "," cats)])
            ++ (if arch then [some "--include-archive"] else [])
            ++ (if tags.isEmpty then []
                else [some "--tags", some (String.intercalate "," tags)])
            ++ (if pyTruthy vlt then [some "--vault", vlt] else [])) := by
  simp [list_items_argv, list_generic_argv, OPArgv.init, pyTruthy]

theorem argv_create_item (e cat tfile name : String) (url : Option OPURL)
    (vlt : Option String) :
    create_item_argv e ⟨true, cat, tfile, url⟩ name vlt =
      (.ok ⟨[some e, some "create", some "item",
             some cat, some "--title", some name, some "--template", some tfile]
              ++ ((if pyTruthy (Option.bind url OPURL.url)
                   then [some "--url", Option.bind url OPURL.url] else [])
                  ++ (if pyTruthy vlt then [some "--vault", vlt] else [])),
            some "create", some "item",
            [some cat, some "--title", some name, some "--template", some tfile]
              ++ ((if pyTruthy (Option.bind url OPURL.url)
                   then [some "--url", Option.bind url OPURL.url] else [])
                  ++ (if pyTruthy vlt then [some "--vault", vlt] else []))⟩,
       [.serializeTemplate]) := by
  cases url <;> simp [create_item_argv, OPArgv.init, pyTruthy, Option.bind]

/-- C3: for every builder operation and every choice of its parameters, the
produced argument vector is ordered as executable path, then global flags,
then the primary command keyword, then the subcommand keyword (if any), then
positional arguments, then optional flags in their documented order.  Each
conjunct spells out the exact ordered concatenation for one builder. -/
theorem claim_C3_builder_ordering (e n d t sh sess cat tfile name : String)
    (v f vlt acct : Option String) (fg arch : Bool) (cats tags : List String)
    (url : Option OPURL) :
    (get_item_argv e n v f).argv =
      [some e] ++ [] ++ [some "get"] ++ [some "item"] ++ [some n]
        ++ ((if pyTruthy v then [some "--vault", v] else [])
            ++ (if pyTruthy f then [some "--fields", f] else [])) ∧
    (get_totp_argv e t v).argv =
      [some e] ++ [] ++ [some "get"] ++ [some "totp"] ++ [some t]
        ++ (if pyTruthy v then [some "--vault", v] else []) ∧
    (get_document_argv e d v).argv =
      [some e] ++ [] ++ [some "get"] ++ [some "document"] ++ [some d]
        ++ (if pyTruthy v then [some "--vault", v] else []) ∧
    (normal_signin_argv e acct).argv =
      [some e] ++ (if pyTruthy acct then [some "--account", acct] else [])
        ++ [some "signin"] ++ [acct, some "--raw"] ∧
    (signout_argv e sh sess fg).argv =
      [some e] ++ [some "--account", some sh, some "--session", some sess]
        ++ [some "signout"] ++ (if fg then [some "--forget"] else []) ∧
    (forget_argv e sh).argv = [some e] ++ [] ++ [some "forget"] ++ [some sh] ∧
    (cli_version_argv e).argv = [some e] ++ [some "--version"] ∧
    (get_verify_signin_argv e).argv =
      [some e] ++ [] ++ [some "list"] ++ [some "templates"] ∧
    (list_items_argv e cats arch tags vlt).argv =
      [some e] ++ [] ++ [some "list"] ++ [some "items"]
        ++ ((if cats.isEmpty then []
             else [some "--categories", some (String.intercalate "," cats)])
            ++ (if arch then [some "--include-archive"] else [])
            ++ (if tags.isEmpty then []
                else [some "--tags", some (String.intercalate "," tags)])
            ++ (if pyTruthy vlt then [some "--vault", vlt] else [])) ∧
    Except.map OPArgv.argv (create_item_argv e ⟨true, cat, tfile, url⟩ name vlt).1 =
      .ok ([some e] ++ [] ++ [some "create"] ++ [some "item"]
        ++ [some cat, some "--title", some name, some "--template", some tfile]
        ++ ((if pyTruthy (Option.bind url OPURL.url)
             then [some "--url", Option.bind url OPURL.url] else [])
            ++ (if pyTruthy vlt then [some "--vault", vlt] else []))) := by
  refine ⟨?_, ?_, ?_, ?_, ?_, ?_, ?_, ?_, ?_, ?_⟩
  · simpa using argv_get_item e n v f
  · simpa using argv_get_totp e t v
  · simpa using argv_get_document e d v
  · simpa using argv_normal_signin e acct
  · simpa using argv_signout e sh sess fg
  · simpa using argv_forget e sh
  · simpa using argv_cli_version e
  · simpa using argv_get_verify_signin e
  · simpa using argv_list_items e cats arch tags vlt
  · rw [argv_create_item e cat tfile name url vlt]
    simp [Except.map]

/-- C4: the get-item builder produces exactly
`[exe, "get", "item", identifier]` followed by the `--vault` pair only when
the vault value is given (truthy) and the `--fields` pair only when the
fields value is given; in particular with both absent nothing further
appears, and an empty-string optional value contributes no tokens at all. -/
theorem claim_C4_get_item_exact (e n : String) (v f : Option String) :
    (get_item_argv e n v f).argv =
      [some e, some "get", some "item", some n]
        ++ ((if pyTruthy v then [some "--vault", v] else [])
            ++ (if pyTruthy f then [some "--fields", f] else [])) ∧
    (get_item_argv e n none none).argv = [some e, some "get", some "item", some n] ∧
    (get_item_argv e n (some "") f).argv =
      [some e, some "get", some "item", some n]
        ++ (if pyTruthy f then [some "--fields", f] else []) ∧
    (get_item_argv e n v (some "")).argv =
      [some e, some "get", some "item", some n]
        ++ (if pyTruthy v then [some "--vault", v] else []) := by
  have h0 : pyTruthy (some "") = false := rfl
  refine ⟨argv_get_item e n v f, ?_, ?_, ?_⟩
  · simpa using argv_get_item e n none none
  · simpa [h0] using argv_get_item e n (some "") f
  · simpa [h0] using argv_get_item e n v (some "")

/-- C5: when an item's `is_from_template` is false, `create_item_argv` fails
with the `InvalidItem` error and its collaborator trace is empty: the item's
template serialization is never performed and no process execution event is
ever emitted (the builder contains no Process Executor call at all). -/
theorem claim_C5_create_item_invalid (e name : String) (item : OPAbstractItem)
    (vault : Option String) (h : item.is_from_template = false) :
    create_item_argv e item name vault =
      (.error (.invalidItem
        ("Attempting to create item using object not from a template: " ++ name)), []) := by
  simp [create_item_argv, h]

/-- Witness for C5 at a concrete non-template item. -/
theorem claim_C5_create_item_invalid_witness :
    (OPAbstractItem.mk false "Login" "/tmp/tmpf" none).is_from_template = false ∧
    create_item_argv "op" (OPAbstractItem.mk false "Login" "/tmp/tmpf" none) "Item 1" none =
      (.error (.invalidItem
        ("Attempting to create item using object not from a template: " ++ "Item 1")), []) :=
  ⟨rfl, claim_C5_create_item_invalid "op" "Item 1"
    (OPAbstractItem.mk false "Login" "/tmp/tmpf" none) none rfl⟩

/-- C7: for every execution with non-zero exit code, the checked run fails
with `CommandFailed` carrying the decoded (rstripped) stderr text and the
exit code, while the `ignore_error` opt-out returns the (stdout, stderr,
exit code) triple unchanged. -/
theorem claim_C7_run_checked (stdout : Option String) (stderr : String) (rc : Int)
    (h : rc ≠ 0) :
    run_raw stdout stderr rc false = .error (.cmdFailed (pyRstrip stderr) rc) ∧
    run_raw stdout stderr rc true = .ok (stdout, stderr, rc) := by
  constructor
  · simp [run_raw, h]
  · simp [run_raw]

/-- Witness for C7 at exit code 1. -/
theorem claim_C7_run_checked_witness :
    (1 : Int) ≠ 0 ∧
    run_raw (some "out") "some error\n" 1 false = .error (.cmdFailed "some error" 1) ∧
    run_raw (some "out") "some error\n" 1 true = .ok (some "out", "some error\n", 1) := by
  have h := claim_C7_run_checked (some "out") "some error\n" 1 (by decide)
  have e : pyRstrip "some error\n" = "some error" := by rfl
  exact ⟨by decide, by rw [← e]; exact h.1, h.2⟩

/-- C1: during session reuse verification with a (truthy) token present in the
environment, a probe command-failure whose error output contains the literal
text "not currently signed in" makes `_verify_signin` discard the token and
return no token, while any other command failure of the probe is re-raised
unchanged. -/
theorem claim_C1_verify_invalidation (envm : List (String × String))
    (svar tok out : String) (rc : Int)
    (hget : envGet envm svar = some tok) (hne : tok ≠ "") :
    (strContains out NOT_SIGNED_IN_TEXT = true →
      verify_signin envm svar (.error (.cmdFailed out rc)) =
        (.ok none, [.runVerifyProbe])) ∧
    (strContains out NOT_SIGNED_IN_TEXT = false →
      verify_signin envm svar (.error (.cmdFailed out rc)) =
        (.error (.cmdFailed out rc), [.runVerifyProbe])) := by
  constructor <;> intro h <;> simp [verify_signin, hget, hne, h]

/-- Witness for C1: a concrete environment holding a token, one probe failure
carrying the marker text (token discarded) and one without it (re-raised). -/
theorem claim_C1_verify_invalidation_witness :
    verify_signin [("OP_SESSION_acct", "tok123")] "OP_SESSION_acct"
        (.error (.cmdFailed "[ERROR] You are not currently signed in" 1)) =
      (.ok none, [.runVerifyProbe]) ∧
    verify_signin [("OP_SESSION_acct", "tok123")] "OP_SESSION_acct"
        (.error (.cmdFailed "[ERROR] connection refused" 1)) =
      (.error (.cmdFailed "[ERROR] connection refused" 1), [.runVerifyProbe]) := by
  have h1 := claim_C1_verify_invalidation [("OP_SESSION_acct", "tok123")]
    "OP_SESSION_acct" "tok123" "[ERROR] You are not currently signed in" 1
    (by rfl) (by decide)
  have h2 := claim_C1_verify_invalidation [("OP_SESSION_acct", "tok123")]
    "OP_SESSION_acct" "tok123" "[ERROR] connection refused" 1
    (by rfl) (by decide)
  exact ⟨h1.1 (by rfl), h2.2 (by rfl)⟩

/-- C10 counterexample: `normal_signin_argv` with an absent shorthand (its
default) produces a vector containing the absent value (`None`) as a
positional entry, so the produced Argument Vector is not a sequence of
strings for that choice of parameters. -/
theorem claim_C10_counterexample :
    ((normal_signin_argv "op" none).argv.all Option.isSome) = false := by rfl

/-- C10 amended: for every builder operation and every choice of its
parameters, the produced Argument Vector is an ordered sequence of strings —
except that `normal_signin_argv` requires its shorthand to be present (when
the shorthand is absent, the absent value itself is embedded as a positional
entry, as the counterexample shows). -/
theorem claim_C10_amended_all_strings (e n d t sh sess name : String)
    (v f vlt : Option String) (fg arch : Bool) (cats tags : List String)
    (item : OPAbstractItem) (a : OPArgv) :
    ((get_item_argv e n v f).argv.all Option.isSome) = true ∧
    ((get_totp_argv e t v).argv.all Option.isSome) = true ∧
    ((get_document_argv e d v).argv.all Option.isSome) = true ∧
    ((normal_signin_argv e (some sh)).argv.all Option.isSome) = true ∧
    ((signout_argv e sh sess fg).argv.all Option.isSome) = true ∧
    ((forget_argv e sh).argv.all Option.isSome) = true ∧
    ((cli_version_argv e).argv.all Option.isSome) = true ∧
    ((get_verify_signin_argv e).argv.all Option.isSome) = true ∧
    ((list_items_argv e cats arch tags vlt).argv.all Option.isSome) = true ∧
    ((create_item_argv e item name vlt).1 = .ok a → (a.argv.all Option.isSome) = true) := by
  have optTrue : ∀ o : Option String,
      ((if pyTruthy o then [some "--vault", o] else []).all Option.isSome) = true := by
    intro o
    cases o with
    | none => rfl
    | some s => by_cases hs : s = "" <;> simp [pyTruthy, hs]
  refine ⟨?_, ?_, ?_, ?_, ?_, ?_, ?_, ?_, ?_, ?_⟩
  · rw [argv_get_item]
    cases v with
    | none => cases f with
      | none => rfl
      | some s => by_cases hs : s = "" <;> simp [pyTruthy, hs]
    | some s =>
      cases f with
      | none => by_cases hs : s = "" <;> simp [pyTruthy, hs]
      | some s2 =>
        by_cases hs : s = "" <;> by_cases hs2 : s2 = "" <;> simp [pyTruthy, hs, hs2]
  · rw [argv_get_totp]
    cases v with
    | none => rfl
    | some s => by_cases hs : s = "" <;> simp [pyTruthy, hs]
  · rw [argv_get_document]
    cases v with
    | none => rfl
    | some s => by_cases hs : s = "" <;> simp [pyTruthy, hs]
  · rw [argv_normal_signin]
    by_cases hs : sh = "" <;> simp [pyTruthy, hs]
  · rw [argv_signout]
    cases fg <;> simp
  · rfl
  · rfl
  · rfl
  · rw [argv_list_items]
    cases cats <;> cases tags <;> cases arch <;>
      cases vlt with
      | none => simp [pyTruthy]
      | some s => by_cases hs : s = "" <;> simp [pyTruthy, hs]
  · intro hok
    cases item with
    | mk ift citm tfl ufl =>
      cases ift with
      | false => simp [create_item_argv] at hok
      | true =>
        rw [argv_create_item] at hok
        simp only [Prod.fst, Except.ok.injEq] at hok
        subst hok
        cases hurl : pyTruthy (Option.bind ufl OPURL.url) <;>
          cases hvlt : pyTruthy vlt
        · simp [hurl, hvlt]
        · simp [hurl, hvlt, pyTruthy_isSome vlt hvlt]
        · simp [hurl, hvlt, pyTruthy_isSome _ hurl]
        · simp [hurl, hvlt, pyTruthy_isSome _ hurl, pyTruthy_isSome vlt hvlt]

/-- Witness for the amended C10: a concrete template-built item, with the
create-item hypothesis discharged at that input. -/
theorem claim_C10_amended_all_strings_witness :
    (create_item_argv "op" ⟨true, "Login", "/tmp/t", none⟩ "New Item" none).1 =
      .ok (OPArgv.init "op" (some "create")
        [some "Login", some "--title", some "New Item", some "--template", some "/tmp/t"]
        (some "item")) ∧
    ((OPArgv.init "op" (some "create")
        [some "Login", some "--title", some "New Item", some "--template", some "/tmp/t"]
        (some "item")).argv.all Option.isSome) = true := by
  have h := claim_C10_amended_all_strings "op" "n" "d" "t" "sh" "sess" "New Item"
    none none none false false [] [] ⟨true, "Login", "/tmp/t", none⟩
    (OPArgv.init "op" (some "create")
      [some "Login", some "--title", some "New Item", some "--template", some "/tmp/t"]
      (some "item"))
  exact ⟨by rfl, h.2.2.2.2.2.2.2.2.2 (by rfl)⟩

/-
Helper lemmas about the success path of the embedded `__init__`.
-/

theorem opSigninPhase_ok_shorthand (w : OPWorld) (sh : String)
    (addr email key pw : Option String) (ppr : Bool) (svar : String)
    (st : OPSessionState) (ev : List OPEvent)
    (h : opSigninPhase w sh addr email key pw ppr svar = (.ok st, ev)) :
    st.account_shorthand = sh := by
  rw [opSigninPhase] at h
  by_cases hpw : (!pyTruthy pw && !ppr) = true
  · rw [if_pos hpw] at h
    simp at h
  · rw [if_neg hpw] at h
    rcases hsr : w.signin_run with er | out
    · rw [hsr] at h
      rcases er <;> simp at h
    · rw [hsr] at h
      simp at h
      rw [← h.1]

theorem opInit_ok_resolve (w : OPWorld)
    (explicit addr email key pw : Option String) (ues ppr : Bool)
    (r : OPSessionState)
    (h : (opInit w explicit addr email key pw ues ppr).1 = .ok r) :
    resolve_account_shorthand explicit w.configOutcome = .ok r.account_shorthand := by
  rw [opInit] at h
  rcases hvr : w.version_run with er | vstr
  · rw [hvr] at h
    simp at h
  · rw [hvr] at h
    rcases hres : resolve_account_shorthand explicit w.configOutcome with er | sh2
    · rw [hres] at h
      simp at h
    · rw [hres] at h
      simp only [] at h
      rcases hvv : (if ues = true then verify_signin w.env ("OP_SESSION_" ++ sh2) w.verify_probe
          else (.ok none, [])) with ⟨vr, ev⟩
      rw [hvv] at h
      rcases vr with e2 | tok0
      · simp at h
      · rcases tok0 with _ | t
        · simp only [] at h
          rcases hph : opSigninPhase w sh2 addr email key pw ppr
              ("OP_SESSION_" ++ sh2) with ⟨pr, ev2⟩
          rw [hph] at h
          simp only [] at h
          rcases pr with e3 | st
          · simp at h
          · have hst : st.account_shorthand = sh2 :=
              opSigninPhase_ok_shorthand w sh2 addr email key pw ppr
                ("OP_SESSION_" ++ sh2) st ev2 hph
            have hr : st = r := Except.ok.inj h
            rw [← hr, hst]
        · by_cases ht : t = ""
          · subst ht
            simp only [] at h
            rw [if_pos trivial] at h
            rcases hph : opSigninPhase w sh2 addr email key pw ppr
                ("OP_SESSION_" ++ sh2) with ⟨pr, ev2⟩
            rw [hph] at h
            simp only [] at h
            rcases pr with e3 | st
            · simp at h
            · have hst : st.account_shorthand = sh2 :=
                opSigninPhase_ok_shorthand w sh2 addr email key pw ppr
                  ("OP_SESSION_" ++ sh2) st ev2 hph
              have hr : st = r := Except.ok.inj h
              rw [← hr, hst]
          · simp only [] at h
            rw [if_neg ht] at h
            simp only [] at h
            have hr := Except.ok.inj h
            rw [← hr]

/-- C2 counterexample: with no explicit shorthand and no discoverable config
file, construction fails — but with the `ConfigNotFound` error propagated from
`OPCLIConfig.__init__`, not with a `NotSignedIn` error as the claim requires
for every construction lacking both shorthand sources. -/
theorem claim_C2_counterexample :
    (opInit ⟨[], .noConfigFound, .ok "1.0.5", .ok (), .ok "t"⟩
        none none none none none false true).1 =
      .error (.configNotFound "No op configuration found") ∧
    ∀ msg, (OPError.configNotFound "No op configuration found") ≠ .notSignedIn msg :=
  ⟨rfl, fun _ h => OPError.noConfusion h⟩

/-- C2 amended: on construction the account shorthand is the explicit argument
when given, else the config's `latest_signin` value; when the config loads but
yields no shorthand, construction fails with `NotSignedIn`; when the config
cannot be located, opened or parsed, construction instead fails with that
propagated `ConfigNotFound` error.  The final conjuncts transport this
through `__init__`: resolution errors become the construction's error, and a
successful construction records exactly the resolved shorthand. -/
theorem claim_C2_amended_shorthand (sh ls v : String) (cfg : ConfigOutcome)
    (w : OPWorld) (explicit addr email key pw : Option String) (ues ppr : Bool) :
    resolve_account_shorthand (some sh) cfg = .ok sh ∧
    resolve_account_shorthand none (.parsed (some ls)) = .ok ls ∧
    resolve_account_shorthand none (.parsed none) =
      .error (.notSignedIn "Account shorthand not provided and not found in 'op' config") ∧
    (∀ er, OPCLIConfig_init cfg = .error er →
      resolve_account_shorthand none cfg = .error er) ∧
    (w.version_run = .ok v →
      (∀ er, resolve_account_shorthand explicit w.configOutcome = .error er →
        (opInit w explicit addr email key pw ues ppr).1 = .error er) ∧
      (∀ r, (opInit w explicit addr email key pw ues ppr).1 = .ok r →
        resolve_account_shorthand explicit w.configOutcome = .ok r.account_shorthand)) := by
  refine ⟨rfl, rfl, rfl, ?_, ?_⟩
  · intro er her
    simp [resolve_account_shorthand, her]
  · intro hv
    exact ⟨fun er her => by simp [opInit, hv, her],
           fun r hr => opInit_ok_resolve w explicit addr email key pw ues ppr r hr⟩

/-- Witness for the amended C2: a parsed config with `latest_signin` absent
really does produce `NotSignedIn`, and the error-propagation conjuncts are
discharged at a concrete world whose config probe finds nothing. -/
theorem claim_C2_amended_shorthand_witness :
    resolve_account_shorthand none (.parsed none) =
      .error (.notSignedIn "Account shorthand not provided and not found in 'op' config") ∧
    (opInit ⟨[], .fileNotFound "/home/u/.config/op/config", .ok "0.9.3", .ok (), .ok "t"⟩
        none none none none none false true).1 =
      .error (.configNotFound
        ("op config not found at path: " ++ "/home/u/.config/op/config")) := by
  have h := claim_C2_amended_shorthand "sh" "ls" "0.9.3"
    (.fileNotFound "/home/u/.config/op/config")
    ⟨[], .fileNotFound "/home/u/.config/op/config", .ok "0.9.3", .ok (), .ok "t"⟩
    none none none none none false true
  refine ⟨h.2.2.1, ?_⟩
  exact (h.2.2.2.2 rfl).1 _ (h.2.2.2.1 _ rfl)

/-- C6: when construction reaches the sign-in phase (no session reuse here;
a password is supplied or prompting is allowed), the flavor is initial exactly
when all five of the (resolved) account shorthand — a present string by
construction, carried in the event — signin address, email address, secret
key and password are non-absent, and normal otherwise; either way the sign-in
subprocess event records the password as the piped input. -/
theorem claim_C6_signin_flavor (w : OPWorld) (sh v : String)
    (addr email key pw : Option String) (ppr : Bool)
    (hv : w.version_run = .ok v)
    (hp : (pyTruthy pw || ppr) = true) :
    (opInit w (some sh) addr email key pw false ppr).2 =
      [.runVersionProbe,
       if addr.isSome && email.isSome && key.isSome && pw.isSome then
         .runInitialSignin sh addr email key pw
       else .runNormalSignin sh pw] := by
  have hnp : (!pyTruthy pw && !ppr) = false := by
    rcases hb : pyTruthy pw <;> rcases hc : ppr <;> simp_all
  rcases hsr : w.signin_run with er | out
  · rcases er <;>
      simp [opInit, hv, resolve_account_shorthand, opSigninPhase, hnp, hsr] <;>
      rcases ha : addr.isSome <;> rcases hb : email.isSome <;>
        rcases hc : key.isSome <;> rcases hd : pw.isSome <;> simp_all
  · simp [opInit, hv, resolve_account_shorthand, opSigninPhase, hnp, hsr]
    rcases ha : addr.isSome <;> rcases hb : email.isSome <;>
      rcases hc : key.isSome <;> rcases hd : pw.isSome <;> simp_all

/-- Witness for C6: with only a password supplied the normal flavor runs with
the password piped; the hypotheses are discharged at a concrete world. -/
theorem claim_C6_signin_flavor_witness :
    (opInit ⟨[], .parsed none, .ok "1.0.5", .ok (), .ok "raw-token\n"⟩
        (some "acct") none none none (some "pass") false true).2 =
      [.runVersionProbe, .runNormalSignin "acct" (some "pass")] := by
  have h := claim_C6_signin_flavor
    ⟨[], .parsed none, .ok "1.0.5", .ok (), .ok "raw-token\n"⟩
    "acct" "1.0.5" none none none (some "pass") true rfl (by decide)
  simpa using h

/-- C8: with a non-empty token pre-populated in the environment under the
session variable name and a verification probe that succeeds, construction
completes exposing that same token (and re-exporting it), and no sign-in
subprocess of either flavor appears in the invocation trace. -/
theorem claim_C8_session_reuse (w : OPWorld) (sh tok v : String)
    (addr email key pw : Option String) (ppr : Bool)
    (hv : w.version_run = .ok v)
    (henv : envGet w.env ("OP_SESSION_" ++ sh) = some tok)
    (hne : tok ≠ "")
    (hprobe : w.verify_probe = .ok ()) :
    opInit w (some sh) addr email key pw true ppr =
      (.ok ⟨tok, "OP_SESSION_" ++ sh, sh, envSet w.env ("OP_SESSION_" ++ sh) tok⟩,
       [.runVersionProbe, .runVerifyProbe]) ∧
    ∀ ev ∈ (opInit w (some sh) addr email key pw true ppr).2,
      (∀ sh2 a2 e2 k2 i2, ev ≠ .runInitialSignin sh2 a2 e2 k2 i2) ∧
      (∀ sh2 i2, ev ≠ .runNormalSignin sh2 i2) := by
  have h1 : opInit w (some sh) addr email key pw true ppr =
      (.ok ⟨tok, "OP_SESSION_" ++ sh, sh, envSet w.env ("OP_SESSION_" ++ sh) tok⟩,
       [.runVersionProbe, .runVerifyProbe]) := by
    simp [opInit, hv, resolve_account_shorthand, verify_signin, henv, hne, hprobe]
  refine ⟨h1, ?_⟩
  rw [h1]
  intro ev hev
  simp at hev
  rcases hev with rfl | rfl
  · exact ⟨fun _ _ _ _ _ h => OPEvent.noConfusion h, fun _ _ h => OPEvent.noConfusion h⟩
  · exact ⟨fun _ _ _ _ _ h => OPEvent.noConfusion h, fun _ _ h => OPEvent.noConfusion h⟩

/-- Witness for C8 at a concrete environment and world: the pre-populated
token "tk" is exposed unchanged. -/
theorem claim_C8_session_reuse_witness :
    opInit ⟨[("OP_SESSION_acct", "tk")], .parsed none, .ok "1.0.5", .ok (), .ok "x"⟩
        (some "acct") none none none none true true =
      (.ok ⟨"tk", "OP_SESSION_acct", "acct",
            [("OP_SESSION_acct", "tk"), ("OP_SESSION_acct", "tk")]⟩,
       [.runVersionProbe, .runVerifyProbe]) := by
  have h := claim_C8_session_reuse
    ⟨[("OP_SESSION_acct", "tk")], .parsed none, .ok "1.0.5", .ok (), .ok "x"⟩
    "acct" "tk" "1.0.5" none none none none true rfl (by rfl) (by decide) rfl
  simpa using h.1

/-
Round-trip machinery for claim C9: `shlexSplit` inverts `shlexJoin`.
-/

theorem safe_char_facts (c : Char) (h : shlexSafeChar c = true) :
    shlexWsChar c = false ∧ c ≠ bslCh ∧ c ≠ sqCh ∧ c ≠ dqCh := by
  refine ⟨?_, ?_, ?_, ?_⟩
  · rcases hws : shlexWsChar c with _ | _
    · rfl
    · exfalso
      simp only [shlexWsChar, Bool.or_eq_true, decide_eq_true_eq] at hws
      rcases hws with ((rfl | rfl) | rfl) | rfl <;> exact absurd h (by decide)
  · rintro rfl
    exact absurd h (by decide)
  · rintro rfl
    exact absurd h (by decide)
  · rintro rfl
    exact absurd h (by decide)

theorem lex_ws_sq (cs : List Char) (acc : List String) :
    lex (sqCh :: cs) .ws acc = lex cs (.quot sqCh []) acc := rfl

theorem lex_ws_space (cs : List Char) (acc : List String) :
    lex (' ' :: cs) .ws acc = lex cs .ws acc := rfl

theorem lex_ws_safe (c : Char) (h : shlexSafeChar c = true) (cs : List Char)
    (acc : List String) :
    lex (c :: cs) .ws acc = lex cs (.word [c] false) acc := by
  obtain ⟨h1, h2, h3, h4⟩ := safe_char_facts c h
  simp [lex, h1, h2, h3, h4]

theorem lex_word_safe (c : Char) (h : shlexSafeChar c = true) (cs : List Char)
    (tok : List Char) (q : Bool) (acc : List String) :
    lex (c :: cs) (.word tok q) acc = lex cs (.word (tok ++ [c]) q) acc := by
  obtain ⟨h1, h2, h3, h4⟩ := safe_char_facts c h
  simp [lex, h1, h2, h3, h4]

theorem lex_word_space (cs : List Char) (tok : List Char) (q : Bool)
    (acc : List String) (h : (tok.isEmpty && !q) = false) :
    lex (' ' :: cs) (.word tok q) acc = lex cs .ws ((⟨tok⟩ : String) :: acc) := by
  have hw : shlexWsChar ' ' = true := by decide
  simp [lex, h, hw]

theorem lex_word_sq (cs : List Char) (tok : List Char) (q : Bool) (acc : List String) :
    lex (sqCh :: cs) (.word tok q) acc = lex cs (.quot sqCh tok) acc := rfl

theorem lex_word_dq (cs : List Char) (tok : List Char) (q : Bool) (acc : List String) :
    lex (dqCh :: cs) (.word tok q) acc = lex cs (.quot dqCh tok) acc := rfl

theorem lex_quot_sq_close (cs : List Char) (tok : List Char) (acc : List String) :
    lex (sqCh :: cs) (.quot sqCh tok) acc = lex cs (.word tok true) acc := rfl

theorem lex_quot_sq_dq (cs : List Char) (tok : List Char) (acc : List String) :
    lex (dqCh :: cs) (.quot sqCh tok) acc = lex cs (.quot sqCh (tok ++ [dqCh])) acc := rfl

theorem lex_quot_dq_sq (cs : List Char) (tok : List Char) (acc : List String) :
    lex (sqCh :: cs) (.quot dqCh tok) acc = lex cs (.quot dqCh (tok ++ [sqCh])) acc := rfl

theorem lex_quot_dq_close (cs : List Char) (tok : List Char) (acc : List String) :
    lex (dqCh :: cs) (.quot dqCh tok) acc = lex cs (.word tok true) acc := rfl

theorem lex_quot_sq_other (c : Char) (hc : c ≠ sqCh) (cs : List Char)
    (tok : List Char) (acc : List String) :
    lex (c :: cs) (.quot sqCh tok) acc = lex cs (.quot sqCh (tok ++ [c])) acc := by
  have hq : sqCh ≠ dqCh := by decide
  simp [lex, hc, hq]

theorem lex_nil_word (tok : List Char) (q : Bool) (acc : List String)
    (h : (tok.isEmpty && !q) = false) :
    lex [] (.word tok q) acc = .ok (acc.reverse ++ [(⟨tok⟩ : String)]) := by
  simp [lex, h]

theorem lex_word_safe_run (cs : List Char) (h : cs.all shlexSafeChar = true) :
    ∀ (tok : List Char) (q : Bool) (rest : List Char) (acc : List String),
      lex (cs ++ rest) (.word tok q) acc = lex rest (.word (tok ++ cs) q) acc := by
  induction cs with
  | nil =>
    intro tok q rest acc
    simp
  | cons c cs ih =>
    intro tok q rest acc
    simp only [List.all_cons, Bool.and_eq_true] at h
    rw [List.cons_append, lex_word_safe c h.1, ih h.2]
    have hassoc : tok ++ [c] ++ cs = tok ++ c :: cs := by simp
    rw [hassoc]

theorem lex_quoteReplace_run (cs : List Char) :
    ∀ (tok tail : List Char) (acc : List String),
      lex (quoteReplace cs ++ (sqCh :: tail)) (.quot sqCh tok) acc =
        lex tail (.word (tok ++ cs) true) acc := by
  induction cs with
  | nil =>
    intro tok tail acc
    simp [quoteReplace, lex_quot_sq_close]
  | cons c cs ih =>
    intro tok tail acc
    by_cases hc : c = sqCh
    · subst hc
      rw [quoteReplace, if_pos rfl]
      rw [List.cons_append, List.cons_append, List.cons_append, List.cons_append,
        List.cons_append]
      rw [lex_quot_sq_close, lex_word_dq, lex_quot_dq_sq, lex_quot_dq_close,
        lex_word_sq, ih]
      have hassoc : tok ++ [sqCh] ++ cs = tok ++ sqCh :: cs := by simp
      rw [hassoc]
    · rw [quoteReplace, if_neg hc]
      rw [List.cons_append, lex_quot_sq_other c hc, ih]
      have hassoc : tok ++ [c] ++ cs = tok ++ c :: cs := by simp
      rw [hassoc]

theorem lex_quote_step (s : String) (tail : List Char) (acc : List String) :
    ∃ q : Bool, lex (shlexQuoteData s ++ tail) .ws acc = lex tail (.word s.data q) acc ∧
      (s.data.isEmpty && !q) = false := by
  by_cases he : s.data.isEmpty = true
  · have hd : s.data = [] := by
      cases hds : s.data with
      | nil => rfl
      | cons c cs => rw [hds] at he; simp at he
    refine ⟨true, ?_, by simp⟩
    rw [shlexQuoteData, if_pos he, hd]
    rw [List.cons_append, List.cons_append, lex_ws_sq, lex_quot_sq_close,
      List.nil_append]
  · by_cases hs : s.data.all shlexSafeChar = true
    · refine ⟨false, ?_, by simp [he]⟩
      rw [shlexQuoteData, if_neg he, if_pos hs]
      cases hd : s.data with
      | nil => rw [hd] at he; simp at he
      | cons c cs =>
        rw [hd] at hs
        simp only [List.all_cons, Bool.and_eq_true] at hs
        rw [List.cons_append, lex_ws_safe c hs.1, lex_word_safe_run cs hs.2]
        rfl
    · refine ⟨true, ?_, by simp⟩
      rw [shlexQuoteData, if_neg he, if_neg hs]
      rw [List.cons_append, List.append_assoc, List.singleton_append]
      rw [lex_ws_sq, lex_quoteReplace_run]
      rfl

theorem lex_join_run (l : List String) :
    ∀ acc : List String, lex (shlexJoinData l) .ws acc = .ok (acc.reverse ++ l) := by
  induction l with
  | nil =>
    intro acc
    simp [shlexJoinData, lex]
  | cons s rest ih =>
    intro acc
    cases rest with
    | nil =>
      obtain ⟨q, hq, hcond⟩ := lex_quote_step s [] acc
      simp only [List.append_nil] at hq
      rw [shlexJoinData, hq, lex_nil_word _ _ _ hcond, string_mk_data]
    | cons s2 rest2 =>
      obtain ⟨q, hq, hcond⟩ := lex_quote_step s (' ' :: shlexJoinData (s2 :: rest2)) acc
      rw [show shlexJoinData (s :: s2 :: rest2) =
            shlexQuoteData s ++ ' ' :: shlexJoinData (s2 :: rest2) from rfl,
          hq, lex_word_space _ _ _ _ hcond, string_mk_data, ih]
      simp

theorem shlexQuoteTok_eq (t : ArgTok) :
    shlexQuoteTok t = shlexQuoteData (t.getD "") := by
  cases t <;> rfl

theorem shlexJoinToks_eq (ts : List ArgTok) :
    shlexJoinToks ts = shlexJoinData (ts.map (fun t => t.getD "")) := by
  induction ts with
  | nil => rfl
  | cons t rest ih =>
    cases rest with
    | nil => simpa [shlexJoinToks, shlexJoinData] using shlexQuoteTok_eq t
    | cons t2 r2 =>
      rw [show shlexJoinToks (t :: t2 :: r2) =
            shlexQuoteTok t ++ ' ' :: shlexJoinToks (t2 :: r2) from rfl,
          shlexQuoteTok_eq, ih]
      rfl

/-- C9 counterexample: the builder output `normal_signin_argv('op')` (absent
shorthand) renders successfully — `shlex.quote` turns its `None` entry into a
pair of single quotes — and re-tokenizes to `["op", "signin", "", "--raw"]`,
which is not the original ordered token sequence (whose third entry is the
absent value, not the empty string). -/
theorem claim_C9_counterexample :
    shlexSplit (normal_signin_argv "op" none).cmd_str =
      .ok ["op", "signin", "", "--raw"] ∧
    ["op", "signin", "", "--raw"].map some ≠ (normal_signin_argv "op" none).argv :=
  ⟨rfl, by decide⟩

/-- C9 amended: rendering an argument vector with `cmd_str` always succeeds,
and re-tokenizing the rendering with the shell-compatible splitter yields the
original ordered token sequence with each absent (`None`) entry replaced by
the empty string; in particular, for every vector whose entries are all
strings — every builder output except `normal_signin_argv` with an absent
shorthand — the round trip yields back exactly the original sequence. -/
theorem claim_C9_amended_roundtrip (a : OPArgv) :
    shlexSplit a.cmd_str = .ok (a.argv.map (fun t => t.getD "")) ∧
    (∀ l : List String, a.argv = l.map some →
      a.cmd_str = shlexJoin l ∧ shlexSplit a.cmd_str = .ok l) := by
  have hgen : shlexSplit a.cmd_str = .ok (a.argv.map (fun t => t.getD "")) := by
    rw [shlexSplit]
    have hd : (OPArgv.cmd_str a).data = shlexJoinToks a.argv := rfl
    rw [hd, shlexJoinToks_eq, lex_join_run]
    simp
  refine ⟨hgen, ?_⟩
  intro l h
  have hmap0 : ∀ l2 : List String, (l2.map some).map (fun t => t.getD "") = l2 := by
    intro l2
    induction l2 with
    | nil => rfl
    | cons x xs ih => simpa using ih
  have hmap : a.argv.map (fun t => t.getD "") = l := by
    rw [h, hmap0]
  constructor
  · rw [OPArgv.cmd_str, shlexJoin, shlexJoinToks_eq, hmap]
  · rw [hgen, hmap]

/-- Witness for the amended C9 at a concrete builder output with a
space-bearing vault parameter, discharging the all-strings hypothesis. -/
theorem claim_C9_amended_roundtrip_witness :
    shlexSplit (get_item_argv "op" "Example Login 1" (some "Test Data") none).cmd_str =
      .ok ["op", "get", "item", "Example Login 1", "--vault", "Test Data"] ∧
    (get_item_argv "op" "Example Login 1" (some "Test Data") none).cmd_str =
      shlexJoin ["op", "get", "item", "Example Login 1", "--vault", "Test Data"] := by
  have h := (claim_C9_amended_roundtrip
      (get_item_argv "op" "Example Login 1" (some "Test Data") none)).2
    ["op", "get", "item", "Example Login 1", "--vault", "Test Data"] (by rfl)
  exact ⟨h.2, h.1⟩
